import Mathlib

/-!
Verification of `ContamPythonParallel/run_simulations.py`.

The script batch-runs an external executable over a fixed list of
simulation project files with a process pool, capturing per-job stdout,
stderr, exit code and elapsed time, writing one artifact log file per job
and returning one summary string per job.

The shallow embedding models the effectful environment (file system,
subprocess launches, artifact writes) as a record of oracles `Env`, and
translates `run_contam` and `main` into pure Lean functions over `Env`.
Exceptions raised by `subprocess.run` are modelled as the `Except.error`
branch of the subprocess oracle; failure of the artifact write is modelled
as the oracle `writeFile` returning `false`.  Wall-clock time cannot be
observed purely, so the formatted elapsed-time string `"%.2f" % elapsed`
is an abstract value `elapsedStr` supplied by the environment; the code
uses one and the same formatted value in the artifact body and in the
summary line, which the embedding mirrors.
-/

/-- Result of a completed `subprocess.run` call: exit code and the two
captured, decoded text streams. -/
structure ProcResult where
  returncode : Int
  stdout : String
  stderr : String
deriving Repr, DecidableEq

/-- The effectful environment the script runs against.
`fileExists p` models `os.path.exists(p)`; `isExecutable p` models the
OS-level executability of `p` (the script never queries it, the field
exists so that statements about executability can be written down);
`runProcess cmd` models `subprocess.run(cmd, ...)`, with `Except.error`
standing for a raised exception such as `PermissionError`;
`writeFile p c` tells whether opening `p` and writing `c` succeeds;
`makedirsOk` tells whether `os.makedirs("output")` would succeed;
`elapsedStr` is the abstract two-decimal formatted elapsed time. -/
structure Env where
  fileExists : String → Bool
  isExecutable : String → Bool
  runProcess : List String → Except String ProcResult
  writeFile : String → String → Bool
  makedirsOk : Bool
  elapsedStr : String

/-- Python `str.replace(old, new)` over character lists: replace every
non-overlapping occurrence of `pat`, scanning left to right.  Structural
recursion on a fuel argument so the kernel can evaluate it; one character
is consumed per step, so fuel equal to the input length is enough
whenever `pat` is nonempty. -/
def replaceAux (pat rep : List Char) : Nat → List Char → List Char
  | 0, s => s
  | _ + 1, [] => []
  | fuel + 1, c :: rest =>
    if pat.isPrefixOf (c :: rest) then
      rep ++ replaceAux pat rep fuel ((c :: rest).drop pat.length)
    else
      c :: replaceAux pat rep fuel rest

/-- Python `s.replace(pat, rep)` for nonempty `pat`. -/
def strReplace (s pat rep : String) : String :=
  String.mk (replaceAux pat.data rep.data s.data.length s.data)

/-- `os.path.basename` for paths with `/` as separator: everything after
the last separator. -/
def basename (p : String) : String :=
  String.mk (p.data.foldl (fun acc c => if c = '/' then [] else acc ++ [c]) [])

/-- `CONTAM_EXE = os.path.join(sys.path[0], 'contamx3.exe')`, with the
script directory abstracted to `"."`. -/
def CONTAM_EXE : String := "./contamx3.exe"

/-- The fixed job list `SIMULATION_FILES` from the source. -/
def SIMULATION_FILES : List String :=
  ["simulations/sim1.prj", "simulations/sim2.prj", "simulations/sim3.prj"]

/-- Everything observable about one `run_contam` call: the summary string
it returns, whether a subprocess launch was attempted, whether the
artifact write was attempted, the artifact path targeted (computed only on
the completed branch, as in the source) and the artifact contents when the
write succeeded. -/
structure RunResult where
  summary : String
  launched : Bool
  writeAttempted : Bool
  artifactPath : Option String
  artifactContents : Option String
deriving Repr, DecidableEq

/-- Translation of `run_contam(sim_file)`.  Mirrors the source line by
line: existence check on `sim_file`, command construction
`[CONTAM_EXE, sim_file]`, the `try`-wrapped `subprocess.run`, the
`log_details` format string, the artifact path
`os.path.join("output", simulation_name.replace(".prj", ".log"))`, the
`try`-wrapped write, and the three possible return strings. -/
def run_contam (contamExe : String) (env : Env) (sim_file : String) : RunResult :=
  let simulation_name := basename sim_file
  if env.fileExists sim_file = false then
    { summary := simulation_name ++ ": File not found"
      launched := false, writeAttempted := false
      artifactPath := none, artifactContents := none }
  else
    let command := [contamExe, sim_file]
    match env.runProcess command with
    | Except.error _ =>
        { summary := simulation_name ++ ": Exception occurred"
          launched := true, writeAttempted := false
          artifactPath := none, artifactContents := none }
    | Except.ok result =>
        let log_details :=
          "Command: " ++ String.intercalate " " command ++ "\n" ++
          "Elapsed Time: " ++ env.elapsedStr ++ " seconds\n" ++
          "Return Code: " ++ toString result.returncode ++ "\n" ++
          "STDOUT:\n" ++ result.stdout ++ "\n" ++
          "STDERR:\n" ++ result.stderr ++ "\n"
        let output_log_file := "output/" ++ strReplace simulation_name ".prj" ".log"
        { summary := simulation_name ++ ": Completed in " ++ env.elapsedStr ++
            " seconds, Return Code: " ++ toString result.returncode
          launched := true, writeAttempted := true
          artifactPath := some output_log_file
          artifactContents :=
            if env.writeFile output_log_file log_details then some log_details
            else none }

/-- One pool execution of `executor.map(run_contam, jobs)`: the pool picks
jobs up and completes them in the completion order `order` (a permutation
of the job indices); the trace records, in completion order, which job
index ran and the `RunResult` it produced. -/
def run_all (contamExe : String) (env : Env) (jobs : List String)
    (order : List Nat) : List (Nat × RunResult) :=
  order.map (fun i => (i, run_contam contamExe env (jobs.getD i "")))

/-- `executor.map` hands results back in submission order, not completion
order: for each input index `i` in order, the result of the trace entry
that ran job `i` (or `none` if no entry ran it). -/
def collect (n : Nat) (trace : List (Nat × RunResult)) : List (Option RunResult) :=
  (List.range n).map fun i => (trace.find? (fun p => p.1 == i)).map Prod.snd

/-- Observable outcome of the whole script: the process exit code, and
the completion-order trace of the pool when the run got that far. -/
structure MainResult where
  exitCode : Nat
  trace : Option (List (Nat × RunResult))
deriving Repr, DecidableEq

/-- Translation of the module top level plus `main()`: the import-time
guard `if not os.path.exists(CONTAM_EXE): sys.exit(1)`; then
`os.makedirs("output")` when the directory is missing (an uncaught
failure there kills the process with a nonzero code, modelled as 1);
then the pool run over `SIMULATION_FILES`. -/
def program (env : Env) (order : List Nat) : MainResult :=
  if env.fileExists CONTAM_EXE = false then
    { exitCode := 1, trace := none }
  else if env.fileExists "output" = false ∧ env.makedirsOk = false then
    { exitCode := 1, trace := none }
  else
    { exitCode := 0, trace := some (run_all CONTAM_EXE env SIMULATION_FILES order) }

/-- Modelled from the spec: the artifact file name the spec promises,
`job_name` with its original extension (everything from the last dot on)
replaced by `".log"`.  Used only to compare the spec's words against the
source's `simulation_name.replace(".prj", ".log")`. -/
def specArtifactName (name : String) : String :=
  if name.data.contains '.' then
    String.mk (((name.data.reverse.dropWhile (fun c => c != '.')).drop 1).reverse) ++ ".log"
  else name ++ ".log"

/-- Modelled from the spec (and matching the source's `log_details`
format string): the artifact body with its labeled sections Command,
Elapsed Time, Return Code, STDOUT, STDERR, in that order. -/
def specArtifactContents (exe s elapsed : String) (r : ProcResult) : String :=
  "Command: " ++ (exe ++ " " ++ s) ++ "\n" ++
  "Elapsed Time: " ++ elapsed ++ " seconds\n" ++
  "Return Code: " ++ toString r.returncode ++ "\n" ++
  "STDOUT:\n" ++ r.stdout ++ "\n" ++
  "STDERR:\n" ++ r.stderr ++ "\n"

/-! ### Concrete environments used by witnesses and counterexamples -/

/-- Everything in place and every launch succeeds with exit code 0,
stdout `"OK"`, empty stderr. -/
def env0 : Env :=
  { fileExists := fun _ => true
    isExecutable := fun _ => true
    runProcess := fun _ => Except.ok { returncode := 0, stdout := "OK", stderr := "" }
    writeFile := fun _ _ => true
    makedirsOk := true
    elapsedStr := "0.00" }

/-- Like `env0` but every launch exits with code 2. -/
def envExit2 : Env :=
  { env0 with runProcess := fun _ => Except.ok { returncode := 2, stdout := "", stderr := "boom" } }

/-- Like `env0` but no simulation input file exists (the executable and
the output directory do). -/
def envNoInputs : Env :=
  { env0 with fileExists := fun p => p == CONTAM_EXE || p == "output" }

/-- Like `env0` but every launch raises (e.g. `PermissionError`). -/
def envRaise : Env :=
  { env0 with runProcess := fun _ => Except.error "PermissionError" }

/-- Like `env0` but every artifact write fails. -/
def envNoWrite : Env :=
  { env0 with writeFile := fun _ _ => false }

/-- Nothing exists on the file system at all. -/
def envNothing : Env :=
  { env0 with fileExists := fun _ => false }

/-- The executable path exists but is not executable; consistently with
that, every launch raises `PermissionError`. -/
def envNotExec : Env :=
  { env0 with
      isExecutable := fun _ => false
      runProcess := fun _ => Except.error "PermissionError" }

-- Sanity checks of the embedding on concrete inputs.
example : basename "simulations/sim1.prj" = "sim1.prj" := by decide
example : strReplace "sim1.prj" ".prj" ".log" = "sim1.log" := by decide
example : strReplace "sim1.txt" ".prj" ".log" = "sim1.txt" := by decide
example : specArtifactName "sim1.txt" = "sim1.log" := by decide
example : strReplace "a.prj.prj" ".prj" ".log" = "a.log.log" := by decide

/-! ### Helper lemmas about the pool model -/

/-- In a trace built by mapping a deterministic worker over a completion
order, looking up index `i` finds exactly the pair `(i, f i)` whenever
`i` occurs in the order. -/
theorem find_in_trace {β : Type} (f : Nat → β) (order : List Nat) (i : Nat)
    (h : i ∈ order) :
    (order.map (fun j => (j, f j))).find? (fun p => p.1 == i) = some (i, f i) := by
  induction order with
  | nil => cases h
  | cons j rest ih =>
    by_cases hj : j = i
    · subst hj
      simp [List.find?_cons]
    · have hb : ((fun p : Nat × β => p.1 == i) (j, f j)) = false := by
        simp [hj]
      have hmem : i ∈ rest := by
        cases h with
        | head => exact absurd rfl hj
        | tail _ h2 => exact h2
      simp only [List.map_cons, List.find?_cons, hb]
      exact ih hmem

/-- Reading a list back through `getD` at every index of `List.range`
returns the list itself (mapped through `g`). -/
theorem range_map_getD {α β : Type} (l : List α) (d : α) (g : α → β) :
    (List.range l.length).map (fun i => g (l.getD i d)) = l.map g := by
  induction l with
  | nil => simp
  | cons a rest ih =>
    simp only [List.length_cons, List.range_succ_eq_map, List.map_cons,
      List.map_map]
    refine congrArg (fun t => g a :: t) ?_
    calc (List.range rest.length).map ((fun i => g ((a :: rest).getD i d)) ∘ Nat.succ)
        = (List.range rest.length).map (fun i => g (rest.getD i d)) := by
          refine List.map_congr_left ?_
          intro i _
          simp
      _ = rest.map g := ih

/-- Collecting results by index from a pool trace whose completion order
covers every index yields exactly the input-order list of results. -/
theorem collect_run_all (exe : String) (env : Env) (jobs : List String)
    (order : List Nat) (hmem : ∀ i, i < jobs.length → i ∈ order) :
    collect jobs.length (run_all exe env jobs order)
      = jobs.map (fun j => some (run_contam exe env j)) := by
  unfold collect run_all
  calc (List.range jobs.length).map
        (fun i => ((order.map (fun j => (j, run_contam exe env (jobs.getD j "")))).find?
          (fun p => p.1 == i)).map Prod.snd)
      = (List.range jobs.length).map
          (fun i => some (run_contam exe env (jobs.getD i ""))) := by
        refine List.map_congr_left ?_
        intro i hi
        rw [find_in_trace (fun j => run_contam exe env (jobs.getD j "")) order i
          (hmem i (List.mem_range.mp hi))]
        rfl
    _ = jobs.map (fun j => some (run_contam exe env j)) :=
        range_map_getD jobs "" (fun j => some (run_contam exe env j))

/-- A completion order that is a permutation of the index range runs each
index exactly once. -/
theorem trace_runs_each_job_once (exe : String) (env : Env) (jobs : List String)
    (order : List Nat) (hperm : order.Perm (List.range jobs.length))
    (i : Nat) (hi : i < jobs.length) :
    (run_all exe env jobs order).countP (fun p => p.1 == i) = 1 := by
  unfold run_all
  rw [List.countP_map]
  have h1 : ((fun p : Nat × RunResult => p.1 == i) ∘
      (fun j => (j, run_contam exe env (jobs.getD j "")))) = (fun j => j == i) := rfl
  rw [h1]
  have h2 : order.countP (fun j => j == i) = order.count i := rfl
  rw [h2, hperm.count_eq i]
  exact List.count_eq_one_of_mem (List.nodup_range _) (List.mem_range.mpr hi)

/-- String append is associative. -/
theorem str_append_assoc (a b c : String) : a ++ b ++ c = a ++ (b ++ c) := by
  apply String.ext
  simp

/-- `" ".join([a, b])`. -/
theorem intercalate_pair (a b : String) :
    String.intercalate " " [a, b] = a ++ " " ++ b := by
  simp [String.intercalate, String.intercalate.go]

/-! ### Claim theorems -/

/-- C1: for every job list of length N processed by the batch runner
(`executor.map` modelled as a pool completing jobs in an arbitrary order
`order`, a permutation of the job indices — this covers every pool size
P ≥ 1), exactly N results are collected, in the same order as the input
job list regardless of completion order, and each job index is run
exactly once in the pool trace (none repeated, none skipped). -/
theorem executor_map_preserves_order (exe : String) (env : Env)
    (jobs : List String) (order : List Nat)
    (hperm : order.Perm (List.range jobs.length)) :
    collect jobs.length (run_all exe env jobs order)
        = jobs.map (fun j => some (run_contam exe env j))
    ∧ (collect jobs.length (run_all exe env jobs order)).length = jobs.length
    ∧ ∀ i, i < jobs.length →
        (run_all exe env jobs order).countP (fun p => p.1 == i) = 1 := by
  have hmem : ∀ i, i < jobs.length → i ∈ order := by
    intro i hi
    exact (hperm.mem_iff).mpr (List.mem_range.mpr hi)
  refine ⟨collect_run_all exe env jobs order hmem, ?_, ?_⟩
  · rw [collect_run_all exe env jobs order hmem]
    simp
  · intro i hi
    exact trace_runs_each_job_once exe env jobs order hperm i hi

/-- Witness for C1: the fixed three-job list with completion order
`[2, 0, 1]` (last job finishes first). -/
theorem executor_map_preserves_order_witness :
    ([2, 0, 1] : List Nat).Perm (List.range SIMULATION_FILES.length)
    ∧ (collect SIMULATION_FILES.length
          (run_all CONTAM_EXE env0 SIMULATION_FILES [2, 0, 1])
        = SIMULATION_FILES.map (fun j => some (run_contam CONTAM_EXE env0 j))
      ∧ (collect SIMULATION_FILES.length
          (run_all CONTAM_EXE env0 SIMULATION_FILES [2, 0, 1])).length
          = SIMULATION_FILES.length
      ∧ ∀ i, i < SIMULATION_FILES.length →
          (run_all CONTAM_EXE env0 SIMULATION_FILES [2, 0, 1]).countP
            (fun p => p.1 == i) = 1) :=
  ⟨by decide,
   executor_map_preserves_order CONTAM_EXE env0 SIMULATION_FILES [2, 0, 1] (by decide)⟩

/-- C2: a job whose input path does not exist returns the file-not-found
summary immediately: no subprocess is launched and the artifact step is
skipped entirely. -/
theorem file_not_found_skips_launch (exe : String) (env : Env) (s : String)
    (h : env.fileExists s = false) :
    run_contam exe env s =
      { summary := basename s ++ ": File not found"
        launched := false, writeAttempted := false
        artifactPath := none, artifactContents := none } := by
  simp [run_contam, h]

/-- Witness for C2: a file system with no files at all; even though every
launch in `envNothing` would raise, the result is the file-not-found one
with no launch recorded. -/
theorem file_not_found_skips_launch_witness :
    envNothing.fileExists "simulations/sim1.prj" = false
    ∧ run_contam CONTAM_EXE envNothing "simulations/sim1.prj" =
        { summary := "sim1.prj: File not found"
          launched := false, writeAttempted := false
          artifactPath := none, artifactContents := none } :=
  ⟨rfl, by
    rw [file_not_found_skips_launch CONTAM_EXE envNothing "simulations/sim1.prj" rfl]
    decide⟩

/-- C3: a job whose launch completes with any exit code — zero or not —
takes the normal completed path: the summary carries exactly that code,
a launch happened and the artifact step was attempted (so the exception
path was not taken). -/
theorem nonzero_exit_is_completed (exe : String) (env : Env) (s : String)
    (r : ProcResult) (h1 : env.fileExists s = true)
    (h2 : env.runProcess [exe, s] = Except.ok r) :
    (run_contam exe env s).summary
        = basename s ++ ": Completed in " ++ env.elapsedStr ++
          " seconds, Return Code: " ++ toString r.returncode
    ∧ (run_contam exe env s).launched = true
    ∧ (run_contam exe env s).writeAttempted = true := by
  simp [run_contam, h1, h2]

/-- Witness for C3: a child exiting with code 2 yields a completed
summary reporting return code 2. -/
theorem nonzero_exit_is_completed_witness :
    envExit2.fileExists "simulations/sim1.prj" = true
    ∧ envExit2.runProcess [CONTAM_EXE, "simulations/sim1.prj"]
        = Except.ok { returncode := 2, stdout := "", stderr := "boom" }
    ∧ (run_contam CONTAM_EXE envExit2 "simulations/sim1.prj").summary
        = "sim1.prj: Completed in 0.00 seconds, Return Code: 2" :=
  ⟨rfl, rfl, by
    have h := nonzero_exit_is_completed CONTAM_EXE envExit2 "simulations/sim1.prj"
      { returncode := 2, stdout := "", stderr := "boom" } rfl rfl
    rw [h.1]
    decide⟩

/-- C4: a launch that raises an operating-system fault is caught:
`run_contam` returns the exception summary (with the launch recorded and
no artifact step), and the pool still collects a result for every job in
input order, so sibling jobs are not aborted. -/
theorem launch_exception_is_caught (exe : String) (env : Env) (s msg : String)
    (h1 : env.fileExists s = true)
    (h2 : env.runProcess [exe, s] = Except.error msg) :
    run_contam exe env s =
      { summary := basename s ++ ": Exception occurred"
        launched := true, writeAttempted := false
        artifactPath := none, artifactContents := none }
    ∧ ∀ jobs order, order.Perm (List.range (List.length jobs)) →
        collect (List.length jobs) (run_all exe env jobs order)
          = jobs.map (fun j => some (run_contam exe env j)) := by
  constructor
  · simp [run_contam, h1, h2]
  · intro jobs order hperm
    refine collect_run_all exe env jobs order ?_
    intro i hi
    exact (hperm.mem_iff).mpr (List.mem_range.mpr hi)

/-- Witness for C4: in an environment where every launch raises, the
failing job reports the exception summary and all three jobs of the fixed
list still get collected results in input order. -/
theorem launch_exception_is_caught_witness :
    envRaise.fileExists "simulations/sim1.prj" = true
    ∧ envRaise.runProcess [CONTAM_EXE, "simulations/sim1.prj"]
        = Except.error "PermissionError"
    ∧ run_contam CONTAM_EXE envRaise "simulations/sim1.prj" =
        { summary := "sim1.prj: Exception occurred"
          launched := true, writeAttempted := false
          artifactPath := none, artifactContents := none }
    ∧ collect (List.length SIMULATION_FILES)
        (run_all CONTAM_EXE envRaise SIMULATION_FILES [1, 2, 0])
        = SIMULATION_FILES.map (fun j => some (run_contam CONTAM_EXE envRaise j)) :=
  ⟨rfl, rfl, by
    rw [(launch_exception_is_caught CONTAM_EXE envRaise "simulations/sim1.prj"
      "PermissionError" rfl rfl).1]
    decide,
   (launch_exception_is_caught CONTAM_EXE envRaise "simulations/sim1.prj"
      "PermissionError" rfl rfl).2 SIMULATION_FILES [1, 2, 0] (by decide)⟩

/-- C5: the artifact write outcome does not influence the job's result:
two environments that agree on the file system, the subprocess behaviour
and the elapsed time — but may disagree arbitrarily on whether writes
succeed — produce the same summary, launch flag, write attempt flag and
artifact path. -/
theorem artifact_write_failure_keeps_result (exe s : String) (env env2 : Env)
    (hfe : env.fileExists = env2.fileExists)
    (hrp : env.runProcess = env2.runProcess)
    (hel : env.elapsedStr = env2.elapsedStr) :
    (run_contam exe env s).summary = (run_contam exe env2 s).summary
    ∧ (run_contam exe env s).launched = (run_contam exe env2 s).launched
    ∧ (run_contam exe env s).writeAttempted = (run_contam exe env2 s).writeAttempted
    ∧ (run_contam exe env s).artifactPath = (run_contam exe env2 s).artifactPath := by
  unfold run_contam
  rw [hfe, hrp, hel]
  by_cases h : env2.fileExists s = false
  · simp [h]
  · simp only [h]
    cases env2.runProcess [exe, s] <;> simp

/-- Witness for C5: with the write failing (`envNoWrite`) the job still
reports the same completed summary as with the write succeeding
(`env0`). -/
theorem artifact_write_failure_keeps_result_witness :
    env0.fileExists = envNoWrite.fileExists
    ∧ env0.runProcess = envNoWrite.runProcess
    ∧ env0.elapsedStr = envNoWrite.elapsedStr
    ∧ (run_contam CONTAM_EXE env0 "simulations/sim1.prj").summary
        = (run_contam CONTAM_EXE envNoWrite "simulations/sim1.prj").summary
    ∧ (run_contam CONTAM_EXE envNoWrite "simulations/sim1.prj").artifactContents = none
    ∧ (run_contam CONTAM_EXE envNoWrite "simulations/sim1.prj").summary
        = "sim1.prj: Completed in 0.00 seconds, Return Code: 0" :=
  ⟨rfl, rfl, rfl,
   (artifact_write_failure_keeps_result CONTAM_EXE "simulations/sim1.prj"
      env0 envNoWrite rfl rfl rfl).1,
   by decide, by decide⟩

/-- C6: a missing executable aborts the run with exit code 1 and an empty
trace (no job attempted); when the executable exists and the output
directory exists or is creatable, the process exits 0 — whatever the
individual jobs do. -/
theorem startup_and_exit_codes (env : Env) (order : List Nat) :
    (env.fileExists CONTAM_EXE = false →
        program env order = { exitCode := 1, trace := none })
    ∧ (env.fileExists CONTAM_EXE = true →
        (env.fileExists "output" = true ∨ env.makedirsOk = true) →
        (program env order).exitCode = 0) := by
  constructor
  · intro h
    simp [program, h]
  · intro h1 h2
    have h3 : ¬(env.fileExists "output" = false ∧ env.makedirsOk = false) := by
      rcases h2 with h | h <;> simp [h]
    simp [program, h1, h3]

/-- Witness for C6: with nothing on disk the run aborts with code 1 and no
trace; with the executable present but every simulation input missing,
all three jobs fail with file-not-found yet the process exits 0. -/
theorem startup_and_exit_codes_witness :
    (envNothing.fileExists CONTAM_EXE = false
      ∧ program envNothing [0, 1, 2] = { exitCode := 1, trace := none })
    ∧ (envNoInputs.fileExists CONTAM_EXE = true
      ∧ (envNoInputs.fileExists "output" = true ∨ envNoInputs.makedirsOk = true)
      ∧ (program envNoInputs [0, 1, 2]).exitCode = 0
      ∧ (program envNoInputs [0, 1, 2]).trace =
          some [(0, run_contam CONTAM_EXE envNoInputs "simulations/sim1.prj"),
                (1, run_contam CONTAM_EXE envNoInputs "simulations/sim2.prj"),
                (2, run_contam CONTAM_EXE envNoInputs "simulations/sim3.prj")]
      ∧ (run_contam CONTAM_EXE envNoInputs "simulations/sim1.prj").summary
          = "sim1.prj: File not found") :=
  ⟨⟨by decide, (startup_and_exit_codes envNothing [0, 1, 2]).1 (by decide)⟩,
   ⟨by decide, Or.inl (by decide),
    (startup_and_exit_codes envNoInputs [0, 1, 2]).2 (by decide) (Or.inl (by decide)),
    by decide, by decide⟩⟩

/-- C7 counterexample: the startup check consults `os.path.exists` only,
never executability.  In an environment where the executable path exists
but is not executable (so every launch raises `PermissionError`), the run
does NOT fail fast: it exits 0 and all three jobs are attempted, each
recording a launch and an exception summary — contradicting the claim
that either failed condition aborts the run with no jobs attempted. -/
theorem startup_check_ignores_executability :
    envNotExec.fileExists CONTAM_EXE = true
    ∧ envNotExec.isExecutable CONTAM_EXE = false
    ∧ (program envNotExec [0, 1, 2]).exitCode = 0
    ∧ (program envNotExec [0, 1, 2]).trace =
        some [(0, { summary := "sim1.prj: Exception occurred"
                    launched := true, writeAttempted := false
                    artifactPath := none, artifactContents := none }),
              (1, { summary := "sim2.prj: Exception occurred"
                    launched := true, writeAttempted := false
                    artifactPath := none, artifactContents := none }),
              (2, { summary := "sim3.prj: Exception occurred"
                    launched := true, writeAttempted := false
                    artifactPath := none, artifactContents := none })] := by
  decide

/-- C7 amended: before any job is dispatched the program checks only that
the executable path exists (and that the output directory exists or can
be created); the run fails fast exactly when one of those checks fails.
Executability is never consulted: a non-executable existing path proceeds
to dispatch all jobs, each failing per-job at launch. -/
theorem fail_fast_iff_exists_check_fails (env : Env) (order : List Nat) :
    (program env order).trace = none ↔
      (env.fileExists CONTAM_EXE = false
        ∨ (env.fileExists "output" = false ∧ env.makedirsOk = false)) := by
  unfold program
  by_cases h1 : env.fileExists CONTAM_EXE = false
  · simp [h1]
  · by_cases h2 : env.fileExists "output" = false ∧ env.makedirsOk = false
    · simp [h1, h2]
    · simp [h1, h2]

/-- C8 counterexample: the source computes the artifact name with
`simulation_name.replace(".prj", ".log")`, not by replacing the name's
original extension.  For the job `"simulations/sim1.txt"` the artifact is
written (contents present) at path `"output/sim1.txt"`, while the claim
predicts the extension-stripped name `"output/sim1.log"`. -/
theorem artifact_name_not_extension_replaced :
    (run_contam CONTAM_EXE env0 "simulations/sim1.txt").artifactContents.isSome = true
    ∧ specArtifactName (basename "simulations/sim1.txt") = "sim1.log"
    ∧ (run_contam CONTAM_EXE env0 "simulations/sim1.txt").artifactPath
        = some "output/sim1.txt"
    ∧ (run_contam CONTAM_EXE env0 "simulations/sim1.txt").artifactPath
        ≠ some ("output/" ++ specArtifactName (basename "simulations/sim1.txt")) := by
  decide

/-- C8 amended: the artifact path is the output directory joined with the
job name with every occurrence of the literal substring `".prj"` replaced
by `".log"`; for the program's actual job names (all of the form
`simN.prj`) this coincides with replacing the original extension by
`".log"`. -/
theorem artifact_path_replaces_prj (exe : String) (env : Env) (s : String)
    (r : ProcResult) (h1 : env.fileExists s = true)
    (h2 : env.runProcess [exe, s] = Except.ok r) :
    (run_contam exe env s).artifactPath
        = some ("output/" ++ strReplace (basename s) ".prj" ".log")
    ∧ (s ∈ SIMULATION_FILES →
        strReplace (basename s) ".prj" ".log" = specArtifactName (basename s)) := by
  constructor
  · simp [run_contam, h1, h2]
  · intro hs
    fin_cases hs <;> decide

/-- Witness for C8 (amended): for the real job `simulations/sim1.prj` the
artifact path is `output/sim1.log`. -/
theorem artifact_path_replaces_prj_witness :
    env0.fileExists "simulations/sim1.prj" = true
    ∧ env0.runProcess [CONTAM_EXE, "simulations/sim1.prj"]
        = Except.ok { returncode := 0, stdout := "OK", stderr := "" }
    ∧ (run_contam CONTAM_EXE env0 "simulations/sim1.prj").artifactPath
        = some "output/sim1.log"
    ∧ strReplace (basename "simulations/sim1.prj") ".prj" ".log"
        = specArtifactName (basename "simulations/sim1.prj") :=
  ⟨rfl, rfl,
   by
    rw [(artifact_path_replaces_prj CONTAM_EXE env0 "simulations/sim1.prj"
      { returncode := 0, stdout := "OK", stderr := "" } rfl rfl).1]
    decide,
   (artifact_path_replaces_prj CONTAM_EXE env0 "simulations/sim1.prj"
      { returncode := 0, stdout := "OK", stderr := "" } rfl rfl).2 (by decide)⟩

/-- C9: when the process completed and the write succeeds, the artifact
contents are exactly the labeled sections Command, Elapsed Time, Return
Code, STDOUT, STDERR in that order; in particular the body contains the
literal `"Return Code: "` followed by the exact code, and the full
stdout. -/
theorem artifact_contents_sections (exe : String) (env : Env) (s : String)
    (r : ProcResult) (h1 : env.fileExists s = true)
    (h2 : env.runProcess [exe, s] = Except.ok r)
    (h3 : ∀ p c, env.writeFile p c = true) :
    (run_contam exe env s).artifactContents
        = some (specArtifactContents exe s env.elapsedStr r)
    ∧ (∃ a b : String, specArtifactContents exe s env.elapsedStr r
        = a ++ ("Return Code: " ++ toString r.returncode) ++ b)
    ∧ (∃ c d : String, specArtifactContents exe s env.elapsedStr r
        = c ++ r.stdout ++ d) := by
  refine ⟨?_, ?_, ?_⟩
  · simp [run_contam, specArtifactContents, h1, h2, h3, intercalate_pair]
  · refine ⟨"Command: " ++ (exe ++ " " ++ s) ++ "\n" ++
      "Elapsed Time: " ++ env.elapsedStr ++ " seconds\n",
      "\n" ++ "STDOUT:\n" ++ r.stdout ++ "\n" ++ "STDERR:\n" ++ r.stderr ++ "\n", ?_⟩
    apply String.ext
    simp [specArtifactContents]
  · refine ⟨"Command: " ++ (exe ++ " " ++ s) ++ "\n" ++
      "Elapsed Time: " ++ env.elapsedStr ++ " seconds\n" ++
      "Return Code: " ++ toString r.returncode ++ "\n" ++ "STDOUT:\n",
      "\n" ++ "STDERR:\n" ++ r.stderr ++ "\n", ?_⟩
    apply String.ext
    simp [specArtifactContents]

/-- Witness for C9: a job producing stdout `"OK"` and return code 0 — the
artifact body literally contains `"OK"` and `"Return Code: 0"`. -/
theorem artifact_contents_sections_witness :
    env0.fileExists "simulations/sim1.prj" = true
    ∧ env0.runProcess [CONTAM_EXE, "simulations/sim1.prj"]
        = Except.ok { returncode := 0, stdout := "OK", stderr := "" }
    ∧ (∀ p c, env0.writeFile p c = true)
    ∧ (run_contam CONTAM_EXE env0 "simulations/sim1.prj").artifactContents
        = some ("Command: ./contamx3.exe simulations/sim1.prj\n" ++
            "Elapsed Time: 0.00 seconds\n" ++
            "Return Code: 0\n" ++
            "STDOUT:\nOK\n" ++
            "STDERR:\n\n") :=
  ⟨rfl, rfl, fun _ _ => rfl, by
    rw [(artifact_contents_sections CONTAM_EXE env0 "simulations/sim1.prj"
      { returncode := 0, stdout := "OK", stderr := "" } rfl rfl (fun _ _ => rfl)).1]
    decide⟩

/-- C10: `run_contam` is total at the worker boundary: whatever the
environment does — input missing, launch raising, write failing — it
returns a summary string of one of the three expected shapes, and never
an error. -/
theorem run_contam_is_total (exe : String) (env : Env) (s : String) :
    (run_contam exe env s).summary = basename s ++ ": File not found"
    ∨ (run_contam exe env s).summary = basename s ++ ": Exception occurred"
    ∨ ∃ rc : Int, (run_contam exe env s).summary
        = basename s ++ ": Completed in " ++ env.elapsedStr ++
          " seconds, Return Code: " ++ toString rc := by
  by_cases h : env.fileExists s = false
  · left
    simp [run_contam, h]
  · cases hr : env.runProcess [exe, s] with
    | error e =>
        right; left
        simp [run_contam, h, hr]
    | ok r =>
        right; right
        exact ⟨r.returncode, by simp [run_contam, h, hr]⟩
